import Mathlib

/-!
# user-management-api: the four handlers of `main.go`

A shallow embedding of `src/main.go`.

* The handlers `getByID`, `deleteUser`, `createUser`, `getUsers` are written
  once, over an arbitrary database handle (`DB σ`), statement for statement as
  in the source.  Every call of the source that can fail returns an `Except`.
* `log.Fatal` ends the process: an `Outcome` records the arguments it was
  given, together with the response writer as it stood at that moment.
* The libraries the handlers call are modelled next to them:
  `encoding/json` decoding into the struct `User` (on JSON values, the
  tokenising of the byte stream is not modelled), `database/sql`
  (`QueryRow(...).Scan`, `Rows.Next`/`Rows.Scan`), and a PostgreSQL table
  `users_test` that follows the `CREATE TABLE` statement of `main`.
-/

namespace UserAPI

/-! ## Data model -/

/-- Go `type User struct { ID int; Name string; Age int }` with the JSON keys
`id`, `name`, `age`. -/
structure User where
  ID : Int
  Name : String
  Age : Int
deriving DecidableEq, Repr

/-- The zero value of `User`, what `var u User` declares. -/
def User.zero : User := { ID := 0, Name := "", Age := 0 }

/-- A JSON value.  A number literal without fraction and exponent is `num`,
any other number literal is `real` (kept as text). -/
inductive Json where
  | null : Json
  | bool (b : Bool) : Json
  | num (v : Int) : Json
  | real (lit : String) : Json
  | str (s : String) : Json
  | arr (items : List Json) : Json
  | obj (members : List (String × Json)) : Json
deriving Repr

/-- Errors a handler can see: from the JSON decoder, from `database/sql`, from
the driver (`pq`, carrying the SQLSTATE) or from the connection. -/
inductive Error where
  | jsonInput : Error
  | jsonUnmarshalType (field : String) : Error
  | errNoRows : Error
  | scan : Error
  | pq (sqlstate : String) : Error
  | conn : Error
deriving DecidableEq, Repr

/-- A request body as `json.Decoder` reads it: the first JSON value of the
stream, or input that is not JSON (including an empty body). -/
inductive Body where
  | malformed : Body
  | value (j : Json) : Body
deriving Repr

/-- Go `url.URL`, the parts the program touches: `Path` is the path in its
escaped form, the string `URL.EscapedPath()` returns and the mux routes on
(`/users/a%2Fb` is the path with the two segments `users` and `a/b`); `Query`
is the parsed query string (`URL.Query()`), pairs in the order they appear. -/
structure URL where
  Path : String
  Query : List (String × String)
deriving DecidableEq, Repr

/-- Go `http.Request`: `PathValues` are the wildcard matches the mux stores
(read with `req.PathValue`). -/
structure Request where
  Method : String
  URL : URL
  PathValues : List (String × String)
  Body : Body
deriving Repr

/-- Go `url.Values.Get`: the first value of the key, the empty string when the
key is absent. -/
def Values.Get (q : List (String × String)) (key : String) : String :=
  match q.find? (fun kv => kv.1 == key) with
  | some kv => kv.2
  | none => ""

/-- Go `req.PathValue`: the value of the wildcard, the empty string when there
is none. -/
def Request.PathValue (req : Request) (name : String) : String :=
  Values.Get req.PathValues name

/-- Go `http.ResponseWriter` as the handlers use it: headers set, status
written by `WriteHeader`, and the values written by `json.Encoder.Encode`. -/
structure ResponseWriter where
  header : List (String × String)
  status : Option Nat
  body : List Json
deriving Repr

/-- The writer a handler receives: nothing written. -/
def ResponseWriter.empty : ResponseWriter :=
  { header := [], status := none, body := [] }

/-- Go `w.Header().Set(k, v)`. -/
def ResponseWriter.HeaderSet (w : ResponseWriter) (k v : String) : ResponseWriter :=
  { w with header := (k, v) :: w.header.filter (fun kv => kv.1 != k) }

/-- Go `w.WriteHeader(code)`: the first call fixes the status. -/
def ResponseWriter.WriteHeader (w : ResponseWriter) (code : Nat) : ResponseWriter :=
  match w.status with
  | some _ => w
  | none => { w with status := some code }

/-- Go `json.NewEncoder(w).Encode(v)`: writes the serialisation of `v`; a write
before `WriteHeader` sends status 200. -/
def ResponseWriter.Encode (w : ResponseWriter) (v : Json) : ResponseWriter :=
  { w with status := some (w.status.getD 200), body := w.body ++ [v] }

/-- An argument of `log.Fatal`. -/
inductive LogArg where
  | err (e : Error) : LogArg
  | code (n : Nat) : LogArg
deriving DecidableEq, Repr

/-- What a handler call leaves behind: the response writer, the database, and
`fatal = some args` when the handler ran `log.Fatal(args...)`, which prints
the arguments and exits the process with status 1. -/
structure Outcome (σ : Type) where
  w : ResponseWriter
  fatal : Option (List LogArg)
  db : σ

/-- The process is still running after the handler. -/
def Outcome.running {σ : Type} (o : Outcome σ) : Prop := o.fatal = none

/-- The outcome of `log.Fatal(err)` at a point where the handler has written
nothing yet: the writer is as it was received, the process has exited. -/
def Outcome.fatalWith {σ : Type} (r : ResponseWriter) (e : Error) (s : σ) : Outcome σ :=
  { w := r, fatal := some [LogArg.err e], db := s }

/-! ## `encoding/json` -/

/-- ASCII lower-casing, the case folding that matters for the keys `id`,
`name`, `age`. -/
def lowerASCII (s : String) : String := String.mk (s.data.map Char.toLower)

/-- Go `int` (64 bit). -/
def inInt64 (v : Int) : Bool := decide (-9223372036854775808 ≤ v) && decide (v ≤ 9223372036854775807)

/-- One member of a JSON object decoded into `u`: the key selects a field of
`User` without regard to case, an unknown key is skipped, `null` leaves the
field as it is, and a value of the wrong kind is an `UnmarshalTypeError`. -/
def setField (u : User) (key : String) (v : Json) : Except Error User :=
  let k := lowerASCII key
  if k = "id" then
    match v with
    | Json.null => Except.ok u
    | Json.num n => if inInt64 n then Except.ok { u with ID := n } else Except.error (Error.jsonUnmarshalType "id")
    | _ => Except.error (Error.jsonUnmarshalType "id")
  else if k = "name" then
    match v with
    | Json.null => Except.ok u
    | Json.str s => Except.ok { u with Name := s }
    | _ => Except.error (Error.jsonUnmarshalType "name")
  else if k = "age" then
    match v with
    | Json.null => Except.ok u
    | Json.num n => if inInt64 n then Except.ok { u with Age := n } else Except.error (Error.jsonUnmarshalType "age")
    | _ => Except.error (Error.jsonUnmarshalType "age")
  else Except.ok u

/-- The members of an object, left to right; the first type error is the one
reported. -/
def decodeMembers : List (String × Json) → User → Except Error User
  | [], u => Except.ok u
  | (k, v) :: rest, u =>
    match setField u k v with
    | Except.error e => Except.error e
    | Except.ok u1 => decodeMembers rest u1

/-- Go `json.NewDecoder(body).Decode(&u)` for `u : User`. -/
def Decode (b : Body) (u : User) : Except Error User :=
  match b with
  | Body.malformed => Except.error Error.jsonInput
  | Body.value Json.null => Except.ok u
  | Body.value (Json.obj ms) => decodeMembers ms u
  | Body.value _ => Except.error (Error.jsonUnmarshalType "")

/-- Go `json.Marshal` of a `User`. -/
def encodeUser (u : User) : Json :=
  Json.obj [("id", Json.num u.ID), ("name", Json.str u.Name), ("age", Json.num u.Age)]

/-- A Go slice value: `none` is the nil slice. -/
abbrev Slice (α : Type) := Option (List α)

/-- Go `append(s, x)`. -/
def Slice.append {α : Type} (s : Slice α) (x : α) : Slice α :=
  match s with
  | none => some [x]
  | some l => some (l ++ [x])

/-- Go `json.Marshal` of a `[]User`: the nil slice is `null`. -/
def encodeUsers (s : Slice User) : Json :=
  match s with
  | none => Json.null
  | some l => Json.arr (l.map encodeUser)

/-! ## `database/sql` -/

/-- A value on the driver boundary: a statement argument or a column of a
result row. -/
inductive Value where
  | int (v : Int) : Value
  | text (s : String) : Value
  | null : Value
deriving DecidableEq, Repr

/-- Go `*sql.Rows` after the query ran: the rows `Next` will deliver, and the
error that stopped the iteration, if any (`Rows.Err`). -/
structure Rows where
  data : List (List Value)
  err : Option Error
deriving Repr

/-- Go `*sql.DB`: a statement with its arguments runs against the state `σ` of
the database and yields a result set or an error. -/
structure DB (σ : Type) where
  Query : String → List Value → σ → Except Error Rows × σ

/-- Digits of a decimal literal, most significant first. -/
def parseDigits : List Char → Nat → Option Nat
  | [], acc => some acc
  | c :: cs, acc => if c.isDigit then parseDigits cs (acc * 10 + (c.toNat - 48)) else none

/-- A decimal integer literal: an optional sign and at least one digit. -/
def parseDecimal (cs : List Char) : Option Int :=
  match cs with
  | [] => none
  | '-' :: ds => if ds.isEmpty then none else (parseDigits ds 0).map (fun n => - (n : Int))
  | '+' :: ds => if ds.isEmpty then none else (parseDigits ds 0).map (fun n => (n : Int))
  | ds => (parseDigits ds 0).map (fun n => (n : Int))

/-- Go `convertAssign` into an `*int` destination: an integer of the driver
(an `int64`) always fits, text is parsed, NULL is an error. -/
def scanInt (v : Value) : Except Error Int :=
  match v with
  | Value.int n => Except.ok n
  | Value.text s =>
    match parseDecimal s.data with
    | some n => if inInt64 n then Except.ok n else Except.error Error.scan
    | none => Except.error Error.scan
  | Value.null => Except.error Error.scan

/-- Go `convertAssign` into a `*string` destination. -/
def scanString (v : Value) : Except Error String :=
  match v with
  | Value.int n => Except.ok (toString n)
  | Value.text s => Except.ok s
  | Value.null => Except.error Error.scan

/-- Go `Scan(&u.ID, &u.Name, &u.Age)` on one row: three columns are expected,
converted left to right. -/
def scanUser (r : List Value) : Except Error User :=
  match r with
  | [a, b, c] =>
    match scanInt a with
    | Except.error e => Except.error e
    | Except.ok id =>
      match scanString b with
      | Except.error e => Except.error e
      | Except.ok name =>
        match scanInt c with
        | Except.error e => Except.error e
        | Except.ok age => Except.ok { ID := id, Name := name, Age := age }
  | _ => Except.error Error.scan

/-- Go `Scan(&u.ID)` on one row: one column is expected. -/
def scanID (r : List Value) : Except Error Int :=
  match r with
  | [a] => scanInt a
  | _ => Except.error Error.scan

/-- Go `db.QueryRow(q, args...).Scan(dest...)`, with `scan` the conversion into
the destinations: the error of the query; without a first row the iteration
error or else `ErrNoRows`; the error of the scan of the first row; and last
the error of closing the result set, which reads it to its end. -/
def QueryRowScan {σ α : Type} (db : DB σ) (q : String) (args : List Value)
    (scan : List Value → Except Error α) (s : σ) : Except Error α × σ :=
  match db.Query q args s with
  | (Except.error e, s1) => (Except.error e, s1)
  | (Except.ok rows, s1) =>
    match rows.data with
    | [] => (Except.error (rows.err.getD Error.errNoRows), s1)
    | row :: _ =>
      match scan row with
      | Except.error e => (Except.error e, s1)
      | Except.ok v =>
        match rows.err with
        | some e => (Except.error e, s1)
        | none => (Except.ok v, s1)

/-! ## The handlers -/

/-- The handler `getByID` (main.go, lines 66-77). -/
def getByID {σ : Type} (db : DB σ) (s : σ) (r : ResponseWriter) (req : Request) : Outcome σ :=
  let id := Values.Get req.URL.Query "id"
  match QueryRowScan db "SELECT * FROM users_test WHERE id = $1" [Value.text id] scanUser s with
  | (Except.error e, s1) => { w := r, fatal := some [LogArg.err e], db := s1 }
  | (Except.ok u, s1) =>
    let r := r.HeaderSet "Content-Type" "application/json"
    let r := r.WriteHeader 200
    let r := r.Encode (encodeUser u)
    { w := r, fatal := none, db := s1 }

/-- The handler `deleteUser` (main.go, lines 79-90). -/
def deleteUser {σ : Type} (db : DB σ) (s : σ) (r : ResponseWriter) (req : Request) : Outcome σ :=
  let id := Values.Get req.URL.Query "id"
  match QueryRowScan db "DELET FROM users_test WHERE id = $1 RETURNING id, name, age" [Value.text id] scanUser s with
  | (Except.error e, s1) => { w := r, fatal := some [LogArg.err e], db := s1 }
  | (Except.ok u, s1) =>
    let r := r.HeaderSet "Content-Type" "application/json"
    let r := r.WriteHeader 200
    let r := r.Encode (encodeUser u)
    { w := r, fatal := none, db := s1 }

/-- The handler `createUser` (main.go, lines 92-107). -/
def createUser {σ : Type} (db : DB σ) (s : σ) (r : ResponseWriter) (req : Request) : Outcome σ :=
  match Decode req.Body User.zero with
  | Except.error e => { w := r, fatal := some [LogArg.err e, LogArg.code 400], db := s }
  | Except.ok u =>
    match QueryRowScan db "INSERT INTO users_test (name, age) VALUES ($1, $2) RETURNING id"
        [Value.text u.Name, Value.int u.Age] scanID s with
    | (Except.error e, s1) => { w := r, fatal := some [LogArg.err e], db := s1 }
    | (Except.ok id, s1) =>
      let u := { u with ID := id }
      let r := r.HeaderSet "Content-Type" "application/json"
      let r := r.WriteHeader 201
      let r := r.Encode (encodeUser u)
      { w := r, fatal := none, db := s1 }

/-- The loop `for rows.Next() { rows.Scan(...); users = append(users, u) }` of
`getUsers`: it stops at the first scan error. -/
def scanLoop : List (List Value) → Slice User → Except Error (Slice User)
  | [], users => Except.ok users
  | row :: rest, users =>
    match scanUser row with
    | Except.error e => Except.error e
    | Except.ok u => scanLoop rest (Slice.append users u)

/-- The handler `getUsers` (main.go, lines 109-131).  The slice `users` starts
as the nil slice; `rows.Err()` is not consulted after the loop. -/
def getUsers {σ : Type} (db : DB σ) (s : σ) (r : ResponseWriter) (_req : Request) : Outcome σ :=
  match db.Query "SELECT * FROM users_test" [] s with
  | (Except.error e, s1) => { w := r, fatal := some [LogArg.err e], db := s1 }
  | (Except.ok rows, s1) =>
    match scanLoop rows.data none with
    | Except.error e => { w := r, fatal := some [LogArg.err e], db := s1 }
    | Except.ok users =>
      let r := r.HeaderSet "Content-Type" "application/json"
      let r := r.WriteHeader 202
      let r := r.Encode (encodeUsers users)
      { w := r, fatal := none, db := s1 }

/-! ## The routes registered in `main` -/

/-- Splits a path at `/`; `cur` holds the segment being read, reversed. -/
def splitSlash : List Char → List Char → List String
  | [], cur => [String.mk cur.reverse]
  | c :: cs, cur =>
    if c = '/' then String.mk cur.reverse :: splitSlash cs [] else splitSlash cs (c :: cur)

/-- The segments of an absolute path: `/users/7` gives `users`, `7`; a path
that ends in `/` has the empty string as its last segment. -/
def pathSegments (p : String) : Option (List String) :=
  match p.data with
  | '/' :: cs => some (splitSlash cs [])
  | _ => none

/-- Go `cleanPath` leaves the path as it is: no segment is `.` or `..`, and
none but the last is empty.  The mux answers any other path by itself, with
a redirect to the cleaned path. -/
def cleanSegments : List String → Bool
  | [] => true
  | [seg] => seg != "." && seg != ".."
  | seg :: rest => seg != "" && seg != "." && seg != ".." && cleanSegments rest

/-- The bytes of a character in UTF-8. -/
def utf8Bytes (c : Char) : List Nat :=
  let n := c.toNat
  if n < 128 then [n]
  else if n < 2048 then [192 + n / 64, 128 + n % 64]
  else if n < 65536 then [224 + n / 4096, 128 + n / 64 % 64, 128 + n % 64]
  else [240 + n / 262144, 128 + n / 4096 % 64, 128 + n / 64 % 64, 128 + n % 64]

/-- A continuation byte of UTF-8. -/
def isCont (b : Nat) : Bool := decide (128 ≤ b) && decide (b < 192)

/-- Bytes read as UTF-8 text, with `fuel` at least the number of bytes.  A byte
that starts no well-formed sequence has no character of its own (a Go string
keeps the byte); it is shown as U+FFFD. -/
def utf8Decode : Nat → List Nat → List Char
  | 0, _ => []
  | _, [] => []
  | fuel + 1, b0 :: rest =>
    if b0 < 128 then Char.ofNat b0 :: utf8Decode fuel rest
    else
      match rest with
      | b1 :: rest1 =>
        if 194 ≤ b0 ∧ b0 < 224 ∧ isCont b1 then
          Char.ofNat ((b0 - 192) * 64 + (b1 - 128)) :: utf8Decode fuel rest1
        else
          match rest1 with
          | b2 :: rest2 =>
            let n3 := (b0 - 224) * 4096 + (b1 - 128) * 64 + (b2 - 128)
            if 224 ≤ b0 ∧ b0 < 240 ∧ isCont b1 ∧ isCont b2 ∧ 2048 ≤ n3
                ∧ ¬ (55296 ≤ n3 ∧ n3 < 57344) then
              Char.ofNat n3 :: utf8Decode fuel rest2
            else
              match rest2 with
              | b3 :: rest3 =>
                let n4 := (b0 - 240) * 262144 + (b1 - 128) * 4096 + (b2 - 128) * 64 + (b3 - 128)
                if 240 ≤ b0 ∧ b0 < 245 ∧ isCont b1 ∧ isCont b2 ∧ isCont b3 ∧ 65536 ≤ n4
                    ∧ n4 < 1114112 then
                  Char.ofNat n4 :: utf8Decode fuel rest3
                else Char.ofNat 65533 :: utf8Decode fuel rest
              | [] => Char.ofNat 65533 :: utf8Decode fuel rest
          | [] => Char.ofNat 65533 :: utf8Decode fuel rest
      | [] => [Char.ofNat 65533]

/-- The value of a hexadecimal digit given as a byte. -/
def hexVal (b : Nat) : Option Nat :=
  if 48 ≤ b ∧ b ≤ 57 then some (b - 48)
  else if 97 ≤ b ∧ b ≤ 102 then some (b - 87)
  else if 65 ≤ b ∧ b ≤ 70 then some (b - 55)
  else none

/-- Percent-decoding of bytes: `none` when a `%` is not followed by two
hexadecimal digits. -/
def unescapeBytes : List Nat → Option (List Nat)
  | [] => some []
  | b :: rest =>
    if b = 37 then
      match rest with
      | h :: l :: rest2 =>
        match hexVal h, hexVal l, unescapeBytes rest2 with
        | some x, some y, some out => some ((x * 16 + y) :: out)
        | _, _, _ => none
      | _ => none
    else
      match unescapeBytes rest with
      | some out => some (b :: out)
      | none => none

/-- Go `pathUnescape` of the mux: the segment with its percent-escapes decoded,
the segment itself when it is not validly escaped. -/
def pathUnescape (seg : String) : String :=
  let bytes := (seg.data.map utf8Bytes).flatten
  match unescapeBytes bytes with
  | some out => String.mk (utf8Decode out.length out)
  | none => seg

/-- The four handlers. -/
inductive Handler where
  | getUsers : Handler
  | getByID : Handler
  | deleteUser : Handler
  | createUser : Handler
deriving DecidableEq, Repr

/-- The patterns of `main` (lines 57-61): `GET /users`, `GET /users/{id}`,
`DELETE /users/{id}`, `POST /users`, matched as Go's `ServeMux` does.  A path
that is not clean is redirected by the mux.  The path is split at `/` and each
segment unescaped; a `GET` pattern also serves `HEAD`; the wildcard `{id}`
matches one segment that is neither empty nor `/`, and is stored as a path
value.  `none`: no handler of the program runs, the mux answers by itself. -/
def ServeMux.route (req : Request) : Option (Handler × List (String × String)) :=
  let isGet := req.Method = "GET" || req.Method = "HEAD"
  match pathSegments req.URL.Path with
  | none => none
  | some segs =>
    if cleanSegments segs then
      match segs.map pathUnescape with
      | ["users"] =>
        if isGet then some (Handler.getUsers, [])
        else if req.Method = "POST" then some (Handler.createUser, [])
        else none
      | ["users", id] =>
        if id = "" ∨ id = "/" then none
        else if isGet then some (Handler.getByID, [("id", id)])
        else if req.Method = "DELETE" then some (Handler.deleteUser, [("id", id)])
        else none
      | _ => none
    else none

/-- Go `router.ServeHTTP`: the matching handler runs on the request with its
path values set. -/
def ServeMux.ServeHTTP {σ : Type} (db : DB σ) (s : σ) (r : ResponseWriter) (req : Request) :
    Option (Outcome σ) :=
  match ServeMux.route req with
  | none => none
  | some (h, pv) =>
    let req1 := { req with PathValues := pv }
    match h with
    | Handler.getUsers => some (getUsers db s r req1)
    | Handler.getByID => some (getByID db s r req1)
    | Handler.deleteUser => some (deleteUser db s r req1)
    | Handler.createUser => some (createUser db s r req1)

/-! ## The table `users_test` in PostgreSQL

```
CREATE TABLE IF NOT EXISTS users_test(
    id INT GENERATED ALWAYS AS IDENTITY,
    name VARCHAR(55) NOT NULL,
    age SMALLINT NOT NULL check (age >= 18) default 18)
```
-/

/-- The table: its rows in the order a sequential scan returns them, and the
next value of the identity sequence of `id` (the sequence is taken as never
exhausted). -/
structure Table where
  rows : List User
  nextID : Int
deriving DecidableEq, Repr

/-- The table right after `CREATE TABLE`. -/
def Table.init : Table := { rows := [], nextID := 1 }

/-- A stored row as a result row `id, name, age`. -/
def rowOf (u : User) : List Value := [Value.int u.ID, Value.text u.Name, Value.int u.Age]

/-- The statements of the table that the model executes. -/
inductive Stmt where
  | selectAll : Stmt
  | selectByID : Stmt
  | insertNameAge : Stmt
  | insertName : Stmt
  | deleteByID : Stmt
deriving DecidableEq, Repr

/-- The first word of a statement. -/
def firstWord (q : String) : String :=
  String.mk ((q.data.dropWhile (fun c => c == ' ')).takeWhile (fun c => c != ' '))

/-- The keywords an SQL command of PostgreSQL can start with. -/
def sqlCommands : List String :=
  ["abort", "alter", "analyze", "begin", "call", "checkpoint", "close", "cluster", "comment",
   "commit", "copy", "create", "deallocate", "declare", "delete", "discard", "do", "drop", "end",
   "execute", "explain", "fetch", "grant", "insert", "listen", "load", "lock", "merge", "move",
   "notify", "prepare", "reassign", "refresh", "reindex", "release", "reset", "revoke",
   "rollback", "savepoint", "security", "select", "set", "show", "start", "table", "truncate",
   "unlisten", "update", "vacuum", "values", "with"]

/-- The parser: text that does not start with a command keyword is a syntax
error (SQLSTATE 42601); of the well-formed statements the model knows the four
the program is meant to issue and the insert that leaves `age` out; any other
statement is reported as not supported (0A000). -/
def parseSQL (q : String) : Except Error Stmt :=
  if ¬ (lowerASCII (firstWord q) ∈ sqlCommands) then Except.error (Error.pq "42601")
  else if q = "SELECT * FROM users_test" then Except.ok Stmt.selectAll
  else if q = "SELECT * FROM users_test WHERE id = $1" then Except.ok Stmt.selectByID
  else if q = "INSERT INTO users_test (name, age) VALUES ($1, $2) RETURNING id" then
    Except.ok Stmt.insertNameAge
  else if q = "INSERT INTO users_test (name) VALUES ($1) RETURNING id" then
    Except.ok Stmt.insertName
  else if q = "DELETE FROM users_test WHERE id = $1 RETURNING id, name, age" then
    Except.ok Stmt.deleteByID
  else Except.error (Error.pq "0A000")

/-- White space around an integer literal is ignored by the server. -/
def trimSpaces (cs : List Char) : List Char :=
  ((cs.dropWhile Char.isWhitespace).reverse.dropWhile Char.isWhitespace).reverse

/-- An argument bound to an integer parameter with range `lo..hi`: `none` is
SQL NULL; text that is no decimal integer is 22P02, a value out of range 22003. -/
def pgIntIn (lo hi : Int) (v : Value) : Except Error (Option Int) :=
  match v with
  | Value.null => Except.ok none
  | Value.int n => if lo ≤ n ∧ n ≤ hi then Except.ok (some n) else Except.error (Error.pq "22003")
  | Value.text s =>
    match parseDecimal (trimSpaces s.data) with
    | none => Except.error (Error.pq "22P02")
    | some n => if lo ≤ n ∧ n ≤ hi then Except.ok (some n) else Except.error (Error.pq "22003")

/-- An argument bound to a text parameter; `none` is SQL NULL. -/
def pgTextIn (v : Value) : Option String :=
  match v with
  | Value.null => none
  | Value.int n => some (toString n)
  | Value.text s => some s

/-- Assignment to a `VARCHAR(n)` column: a longer string is an error unless
the excess is all spaces, which are cut off. -/
def varcharAssign (n : Nat) (s : String) : Option String :=
  if s.length ≤ n then some s
  else if (s.data.drop n).all (fun c => c == ' ') then some (String.mk (s.data.take n))
  else none

/-- The `INSERT` into `users_test`: `age = none` is the statement that leaves
the column out, so that its `default 18` applies.  The identity value is taken
from the sequence before the row is checked, so a rejected row still uses one
up.  Checks, in order: `VARCHAR(55)` (22001), `NOT NULL` (23502),
`check (age >= 18)` (23514).  The new row is stored after the others and its
`id` is returned. -/
def pgInsert (name : Option String) (age : Option (Option Int)) (t : Table) :
    Except Error Rows × Table :=
  let id := t.nextID
  let t1 : Table := { t with nextID := t.nextID + 1 }
  let ageV : Option Int := match age with
    | none => some 18
    | some a => a
  match name with
  | none => (Except.error (Error.pq "23502"), t1)
  | some n =>
    match varcharAssign 55 n with
    | none => (Except.error (Error.pq "22001"), t1)
    | some n1 =>
      match ageV with
      | none => (Except.error (Error.pq "23502"), t1)
      | some a =>
        if a ≥ 18 then
          (Except.ok { data := [[Value.int id]], err := none },
            { t1 with rows := t.rows ++ [{ ID := id, Name := n1, Age := a }] })
        else (Except.error (Error.pq "23514"), t1)

/-- The server executing one statement on the table.  A wrong number of
arguments is a protocol violation (08P01). -/
def pgQuery (q : String) (args : List Value) (t : Table) : Except Error Rows × Table :=
  match parseSQL q with
  | Except.error e => (Except.error e, t)
  | Except.ok Stmt.selectAll =>
    match args with
    | [] => (Except.ok { data := t.rows.map rowOf, err := none }, t)
    | _ => (Except.error (Error.pq "08P01"), t)
  | Except.ok Stmt.selectByID =>
    match args with
    | [a] =>
      match pgIntIn (-2147483648) 2147483647 a with
      | Except.error e => (Except.error e, t)
      | Except.ok none => (Except.ok { data := [], err := none }, t)
      | Except.ok (some v) =>
        (Except.ok { data := (t.rows.filter (fun u => u.ID = v)).map rowOf, err := none }, t)
    | _ => (Except.error (Error.pq "08P01"), t)
  | Except.ok Stmt.insertNameAge =>
    match args with
    | [n, a] =>
      match pgIntIn (-32768) 32767 a with
      | Except.error e => (Except.error e, t)
      | Except.ok av => pgInsert (pgTextIn n) (some av) t
    | _ => (Except.error (Error.pq "08P01"), t)
  | Except.ok Stmt.insertName =>
    match args with
    | [n] => pgInsert (pgTextIn n) none t
    | _ => (Except.error (Error.pq "08P01"), t)
  | Except.ok Stmt.deleteByID =>
    match args with
    | [a] =>
      match pgIntIn (-2147483648) 2147483647 a with
      | Except.error e => (Except.error e, t)
      | Except.ok none => (Except.ok { data := [], err := none }, t)
      | Except.ok (some v) =>
        (Except.ok { data := (t.rows.filter (fun u => u.ID = v)).map rowOf, err := none },
          { t with rows := t.rows.filter (fun u => ¬ (u.ID = v)) })
    | _ => (Except.error (Error.pq "08P01"), t)

/-- The global `db` of `main.go`: the connection to the PostgreSQL database
with the table `users_test`. -/
def pg : DB Table := { Query := pgQuery }

/-- The id string selects a stored row: it reads as the `id` of one. -/
def Table.matchesRow (t : Table) (id : String) : Prop :=
  ∃ u ∈ t.rows, pgIntIn (-2147483648) 2147483647 (Value.text id) = Except.ok (some u.ID)

/-- A stored row. -/
def ann : User := { ID := 1, Name := "Ann", Age := 30 }

/-- A table holding the row `ann`. -/
def tableAnn : Table := { rows := [ann], nextID := 2 }

/-- Another stored row. -/
def bob : User := { ID := 2, Name := "Bob", Age := 41 }

/-- A table holding the rows `bob` and `ann`, in this order. -/
def tableTwo : Table := { rows := [bob, ann], nextID := 3 }

/-- The request `GET path?query`, before routing. -/
def getRequest (path : String) (query : List (String × String)) : Request :=
  { Method := "GET", URL := { Path := path, Query := query }, PathValues := [], Body := Body.malformed }

/-- The request `DELETE path?query`, before routing. -/
def deleteRequest (path : String) (query : List (String × String)) : Request :=
  { Method := "DELETE", URL := { Path := path, Query := query }, PathValues := [], Body := Body.malformed }

/-- The request `POST /users` with the given body. -/
def postRequest (b : Body) : Request :=
  { Method := "POST", URL := { Path := "/users", Query := [] }, PathValues := [], Body := b }

section Lemmas

theorem parseSQL_selectAll : parseSQL "SELECT * FROM users_test" = Except.ok Stmt.selectAll := by
  rfl

theorem parseSQL_selectByID :
    parseSQL "SELECT * FROM users_test WHERE id = $1" = Except.ok Stmt.selectByID := by
  rfl

theorem parseSQL_insert :
    parseSQL "INSERT INTO users_test (name, age) VALUES ($1, $2) RETURNING id"
      = Except.ok Stmt.insertNameAge := by
  rfl

theorem parseSQL_delete :
    parseSQL "DELETE FROM users_test WHERE id = $1 RETURNING id, name, age"
      = Except.ok Stmt.deleteByID := by
  rfl

/-- The statement `deleteUser` sends starts with `DELET`, which is no SQL
command: the server rejects it with a syntax error. -/
theorem parseSQL_delet :
    parseSQL "DELET FROM users_test WHERE id = $1 RETURNING id, name, age"
      = Except.error (Error.pq "42601") := by
  rfl

theorem pgQuery_selectAll (t : Table) :
    pgQuery "SELECT * FROM users_test" [] t
      = (Except.ok { data := t.rows.map rowOf, err := none }, t) := by
  simp [pgQuery, parseSQL_selectAll]

theorem pgQuery_delet (args : List Value) (t : Table) :
    pgQuery "DELET FROM users_test WHERE id = $1 RETURNING id, name, age" args t
      = (Except.error (Error.pq "42601"), t) := by
  simp [pgQuery, parseSQL_delet]

theorem scanUser_rowOf (u : User) : scanUser (rowOf u) = Except.ok u := by
  simp [scanUser, rowOf, scanInt, scanString]

/-- The loop of `getUsers` on rows of the table: every row is appended, in
order. -/
theorem scanLoop_rows (us : List User) (acc : List User) :
    scanLoop (us.map rowOf) (some acc) = Except.ok (some (acc ++ us)) := by
  induction us generalizing acc with
  | nil => simp [scanLoop]
  | cons u rest ih =>
    simp only [List.map_cons, scanLoop, scanUser_rowOf, Slice.append]
    rw [ih]
    simp

theorem scanLoop_rows_nil (u : User) (us : List User) :
    scanLoop ((u :: us).map rowOf) none = Except.ok (some (u :: us)) := by
  simp only [List.map_cons, scanLoop, scanUser_rowOf, Slice.append]
  rw [scanLoop_rows]
  simp

theorem scanLoop_error_of_mem (rows : List (List Value)) (acc : Slice User) (row : List Value)
    (e : Error) (hmem : row ∈ rows) (he : scanUser row = Except.error e) :
    ∃ e1, scanLoop rows acc = Except.error e1 := by
  induction rows generalizing acc with
  | nil => cases hmem
  | cons r0 rest ih =>
    cases h0 : scanUser r0 with
    | error e0 => exact ⟨e0, by simp [scanLoop, h0]⟩
    | ok u0 =>
      have hrest : row ∈ rest := by
        rcases List.mem_cons.mp hmem with h | h
        · rw [h, h0] at he; cases he
        · exact h
      obtain ⟨e1, h1⟩ := ih (Slice.append acc u0) hrest
      exact ⟨e1, by simp [scanLoop, h0, h1]⟩

theorem writer_changes (r : ResponseWriter) (code : Nat) (j : Json) :
    (((r.HeaderSet "Content-Type" "application/json").WriteHeader code).Encode j) ≠ r := by
  intro h
  have hb := congrArg (fun w => w.body.length) h
  simp only [ResponseWriter.Encode, ResponseWriter.WriteHeader, ResponseWriter.HeaderSet] at hb
  cases hs : r.status <;> simp [hs] at hb

/-- The model answers a lookup whose id arrives in the query string: the
stored row comes back with status 200. -/
theorem getByID_query_id :
    getByID pg tableAnn ResponseWriter.empty (getRequest "/users/1" [("id", "1")])
      = { w := { header := [("Content-Type", "application/json")], status := some 200,
                 body := [encodeUser ann] },
          fatal := none, db := tableAnn } := by
  rfl

/-- The correctly spelled `DELETE` removes the row and returns it. -/
theorem pgQuery_delete_row :
    pgQuery "DELETE FROM users_test WHERE id = $1 RETURNING id, name, age" [Value.text "1"]
        tableAnn
      = (Except.ok { data := [rowOf ann], err := none }, { rows := [], nextID := 2 }) := by
  rfl

/-- The column default applies only to an insert that leaves `age` out, a
statement the program never sends. -/
theorem pgQuery_insert_default_age :
    pgQuery "INSERT INTO users_test (name) VALUES ($1) RETURNING id" [Value.text "Zoe"]
        Table.init
      = (Except.ok { data := [[Value.int 1]], err := none },
          { rows := [{ ID := 1, Name := "Zoe", Age := 18 }], nextID := 2 }) := by
  rfl

end Lemmas

/-! ## The claims -/

/-- C1 (defect in the code).  `getByID` is registered for `GET /users/{id}` but
takes its id from the query string (`req.URL.Query().Get("id")`), never from
the path segment.  The request `GET /users/1` on a table that stores row 1 is
routed to `getByID`, which binds the empty string, gets error 22P02 from the
server and ends the process without writing a response; the same happens for
every request without a query string, whatever its path. -/
theorem getByID_reads_query_not_path :
    ServeMux.ServeHTTP pg tableAnn ResponseWriter.empty (getRequest "/users/1" [])
        = some { w := ResponseWriter.empty, fatal := some [LogArg.err (Error.pq "22P02")],
                 db := tableAnn }
      ∧ ∀ (t : Table) (r : ResponseWriter) (m p : String) (pv : List (String × String)) (b : Body),
          getByID pg t r { Method := m, URL := { Path := p, Query := [] }, PathValues := pv, Body := b }
            = { w := r, fatal := some [LogArg.err (Error.pq "22P02")], db := t } := by
  refine ⟨rfl, ?_⟩
  intro t r m p pv b
  rfl

/-- C2 (defect in the code).  The statement of `deleteUser` is spelled
`DELET FROM ...`: on every table and for every request the server rejects it
(42601), no row is removed, and the handler ends the process without writing
a response. -/
theorem deleteUser_never_deletes (t : Table) (r : ResponseWriter) (req : Request) :
    deleteUser pg t r req
      = { w := r, fatal := some [LogArg.err (Error.pq "42601")], db := t } := by
  rfl

/-- C4.  On a table with at least one row `getUsers` answers 202 (one of the
two statuses the claim allows) with a JSON array that has, for each stored row
and in the order the storage returned the rows, the object with that row's
`id`, `name` and `age`; the process keeps running and the table is
untouched. -/
theorem getUsers_lists_every_row (t : Table) (req : Request) (h : t.rows ≠ []) :
    getUsers pg t ResponseWriter.empty req
      = { w := { header := [("Content-Type", "application/json")], status := some 202,
                 body := [Json.arr (t.rows.map (fun u =>
                   Json.obj [("id", Json.num u.ID), ("name", Json.str u.Name),
                     ("age", Json.num u.Age)]))] },
          fatal := none, db := t } := by
  obtain ⟨rows, nextID⟩ := t
  cases rows with
  | nil => exact absurd rfl h
  | cons u us =>
    simp only [getUsers, pg, pgQuery_selectAll, scanLoop_rows_nil]
    rfl

theorem getUsers_lists_every_row_witness :
    tableTwo.rows ≠ [] ∧
      getUsers pg tableTwo ResponseWriter.empty (getRequest "/users" [])
        = { w := { header := [("Content-Type", "application/json")], status := some 202,
                   body := [Json.arr
                     [Json.obj [("id", Json.num 2), ("name", Json.str "Bob"), ("age", Json.num 41)],
                      Json.obj [("id", Json.num 1), ("name", Json.str "Ann"),
                        ("age", Json.num 30)]]] },
            fatal := none, db := tableTwo } :=
  ⟨by decide, getUsers_lists_every_row tableTwo (getRequest "/users" []) (by decide)⟩

/-- C5 (defect in the code).  On the empty table the slice `users` is still
the nil slice when it is encoded, so the body `getUsers` writes (with status
202) is the JSON value `null`, which is not the empty array. -/
theorem getUsers_empty_table_null (n : Int) (req : Request) :
    getUsers pg { rows := [], nextID := n } ResponseWriter.empty req
        = { w := { header := [("Content-Type", "application/json")], status := some 202,
                   body := [Json.null] },
            fatal := none, db := { rows := [], nextID := n } }
      ∧ Json.null ≠ Json.arr [] := by
  refine ⟨rfl, ?_⟩
  intro h
  cases h

/-- C7 (defect in the code).  When decoding the body fails, `createUser` runs
`log.Fatal(err, http.StatusBadRequest)`: the 400 goes to the log, the process
exits, and nothing is written to the response; no statement reaches the
database, whatever database it is. -/
theorem createUser_malformed_fatal {σ : Type} (db : DB σ) (s : σ) (r : ResponseWriter)
    (req : Request) (e : Error) (h : Decode req.Body User.zero = Except.error e) :
    createUser db s r req
      = { w := r, fatal := some [LogArg.err e, LogArg.code 400], db := s } := by
  simp only [createUser, h]

theorem createUser_malformed_fatal_witness :
    createUser pg tableAnn ResponseWriter.empty (postRequest Body.malformed)
      = { w := ResponseWriter.empty,
          fatal := some [LogArg.err Error.jsonInput, LogArg.code 400], db := tableAnn } :=
  createUser_malformed_fatal pg tableAnn ResponseWriter.empty (postRequest Body.malformed)
    Error.jsonInput rfl

/-- C9 (defect in the code).  A body that gives a name and no age decodes to
`Age = 0`, and `createUser` sends that 0 as `$2`: the column default 18 is
never used, the check `age >= 18` rejects the row (23514), nothing is stored,
and the process ends without a response. -/
theorem createUser_omitted_age_rejected (t : Table) (n : String) (h : n.length ≤ 55) :
    createUser pg t ResponseWriter.empty
        (postRequest (Body.value (Json.obj [("name", Json.str n)])))
      = { w := ResponseWriter.empty, fatal := some [LogArg.err (Error.pq "23514")],
          db := { rows := t.rows, nextID := t.nextID + 1 } } := by
  have hdec : Decode (postRequest (Body.value (Json.obj [("name", Json.str n)]))).Body User.zero
      = Except.ok { ID := 0, Name := n, Age := 0 } := rfl
  simp only [createUser, hdec, QueryRowScan, pg, pgQuery, parseSQL_insert, pgIntIn, pgTextIn,
    pgInsert, varcharAssign, h, if_true]
  rfl

theorem createUser_omitted_age_rejected_witness :
    createUser pg Table.init ResponseWriter.empty
        (postRequest (Body.value (Json.obj [("name", Json.str "Ann")])))
      = { w := ResponseWriter.empty, fatal := some [LogArg.err (Error.pq "23514")],
          db := { rows := [], nextID := 2 } } :=
  createUser_omitted_age_rejected Table.init "Ann" (by decide)

/-- C8, as the claim states it, fails: the body with name `Bob` and age 17
decodes to an age below 18, and the client sees neither 400 nor 422 (no status
is written at all). -/
theorem createUser_underage_no_status :
    Decode (postRequest (Body.value (Json.obj
        [("name", Json.str "Bob"), ("age", Json.num 17)]))).Body User.zero
        = Except.ok { ID := 0, Name := "Bob", Age := 17 }
      ∧ ¬ ((createUser pg tableAnn ResponseWriter.empty (postRequest (Body.value (Json.obj
            [("name", Json.str "Bob"), ("age", Json.num 17)])))).w.status = some 400
          ∨ (createUser pg tableAnn ResponseWriter.empty (postRequest (Body.value (Json.obj
            [("name", Json.str "Bob"), ("age", Json.num 17)])))).w.status = some 422) := by
  refine ⟨rfl, ?_⟩
  have hs : (createUser pg tableAnn ResponseWriter.empty (postRequest (Body.value (Json.obj
      [("name", Json.str "Bob"), ("age", Json.num 17)])))).w.status = none := rfl
  rw [hs]
  intro h
  rcases h with h | h <;> cases h

/-- C8 as amended.  When the body decodes to an age below 18 the storage
rejects the insert (check violation 23514; 22003 when the age is not even a
`SMALLINT`, 22001 when the name is too long), the table holds the same rows as
before, and the handler writes nothing to the response: it ends the process
with the error. -/
theorem createUser_underage_rejected (t : Table) (req : Request) (u : User)
    (hdec : Decode req.Body User.zero = Except.ok u) (hage : u.Age < 18) :
    (createUser pg t ResponseWriter.empty req).db.rows = t.rows
      ∧ (createUser pg t ResponseWriter.empty req).w = ResponseWriter.empty
      ∧ ((createUser pg t ResponseWriter.empty req).fatal = some [LogArg.err (Error.pq "23514")]
        ∨ (createUser pg t ResponseWriter.empty req).fatal = some [LogArg.err (Error.pq "22003")]
        ∨ (createUser pg t ResponseWriter.empty req).fatal = some [LogArg.err (Error.pq "22001")]) := by
  have hnot : ¬ (u.Age ≥ 18) := by omega
  have hhi : u.Age ≤ 32767 := by omega
  simp only [createUser, hdec, QueryRowScan, pg, pgQuery, parseSQL_insert, pgIntIn, pgTextIn, hhi,
    and_true]
  by_cases hlo : (-32768 : Int) ≤ u.Age
  · simp only [hlo, if_true, pgInsert]
    cases hv : varcharAssign 55 u.Name with
    | none => simp
    | some n1 => simp [hnot]
  · simp [hlo]

theorem createUser_underage_rejected_witness :
    (createUser pg tableAnn ResponseWriter.empty (postRequest (Body.value (Json.obj
        [("name", Json.str "Bob"), ("age", Json.num 17)])))).db.rows = tableAnn.rows
      ∧ (createUser pg tableAnn ResponseWriter.empty (postRequest (Body.value (Json.obj
        [("name", Json.str "Bob"), ("age", Json.num 17)])))).w = ResponseWriter.empty
      ∧ ((createUser pg tableAnn ResponseWriter.empty (postRequest (Body.value (Json.obj
          [("name", Json.str "Bob"), ("age", Json.num 17)])))).fatal
            = some [LogArg.err (Error.pq "23514")]
        ∨ (createUser pg tableAnn ResponseWriter.empty (postRequest (Body.value (Json.obj
          [("name", Json.str "Bob"), ("age", Json.num 17)])))).fatal
            = some [LogArg.err (Error.pq "22003")]
        ∨ (createUser pg tableAnn ResponseWriter.empty (postRequest (Body.value (Json.obj
          [("name", Json.str "Bob"), ("age", Json.num 17)])))).fatal
            = some [LogArg.err (Error.pq "22001")]) :=
  createUser_underage_rejected tableAnn
    (postRequest (Body.value (Json.obj [("name", Json.str "Bob"), ("age", Json.num 17)])))
    { ID := 0, Name := "Bob", Age := 17 } rfl (by decide)

/-- C6, as the claim states it, fails: no stored row has id 9, and for the
request with id 9 (in the path and in the query string) neither `getByID` nor
`deleteUser` answers 404 with the service still running. -/
theorem notFound_no_404 :
    ¬ tableAnn.matchesRow "9"
      ∧ ¬ ((getByID pg tableAnn ResponseWriter.empty
              { getRequest "/users/9" [("id", "9")] with PathValues := [("id", "9")] }).w.status
              = some 404
            ∧ (getByID pg tableAnn ResponseWriter.empty
              { getRequest "/users/9" [("id", "9")] with PathValues := [("id", "9")] }).running)
      ∧ ¬ ((deleteUser pg tableAnn ResponseWriter.empty
              { deleteRequest "/users/9" [("id", "9")] with PathValues := [("id", "9")] }).w.status
              = some 404
            ∧ (deleteUser pg tableAnn ResponseWriter.empty
              { deleteRequest "/users/9" [("id", "9")] with PathValues := [("id", "9")] }).running) := by
  refine ⟨?_, ?_, ?_⟩
  · rintro ⟨u, hu, h⟩
    have h9 : pgIntIn (-2147483648) 2147483647 (Value.text "9") = Except.ok (some 9) := rfl
    rw [h9] at h
    simp only [tableAnn, List.mem_singleton] at hu
    subst hu
    simp [ann] at h
  · rintro ⟨h, -⟩
    have hs : (getByID pg tableAnn ResponseWriter.empty
        { getRequest "/users/9" [("id", "9")] with PathValues := [("id", "9")] }).w.status
        = none := rfl
    rw [hs] at h
    cases h
  · rintro ⟨h, -⟩
    have hs : (deleteUser pg tableAnn ResponseWriter.empty
        { deleteRequest "/users/9" [("id", "9")] with PathValues := [("id", "9")] }).w.status
        = none := rfl
    rw [hs] at h
    cases h

/-- C6 as amended.  When the id a handler passes to its statement selects no
stored row, `getByID` and `deleteUser` leave the table unchanged, write
nothing to the response (no 404), and end the process with `log.Fatal`. -/
theorem notFound_terminates (t : Table) (req : Request)
    (h : ¬ t.matchesRow (Values.Get req.URL.Query "id")) :
    (∃ e, getByID pg t ResponseWriter.empty req = Outcome.fatalWith ResponseWriter.empty e t)
      ∧ (∃ e, deleteUser pg t ResponseWriter.empty req
            = Outcome.fatalWith ResponseWriter.empty e t) := by
  refine ⟨?_, ⟨Error.pq "42601", rfl⟩⟩
  simp only [getByID, QueryRowScan, pg, pgQuery, parseSQL_selectByID]
  cases hp : pgIntIn (-2147483648) 2147483647 (Value.text (Values.Get req.URL.Query "id")) with
  | error e => exact ⟨e, rfl⟩
  | ok o =>
    cases o with
    | none => exact ⟨Error.errNoRows, rfl⟩
    | some v =>
      have hf : t.rows.filter (fun u => decide (u.ID = v)) = [] := by
        rw [List.filter_eq_nil_iff]
        intro u hu
        simp only [decide_eq_true_eq]
        intro huv
        exact h ⟨u, hu, by rw [hp, huv]⟩
      simp only [hf, List.map_nil]
      exact ⟨Error.errNoRows, rfl⟩

theorem notFound_terminates_witness :
    (∃ e, getByID pg tableAnn ResponseWriter.empty (getRequest "/users/9" [("id", "9")])
          = Outcome.fatalWith ResponseWriter.empty e tableAnn)
      ∧ (∃ e, deleteUser pg tableAnn ResponseWriter.empty (getRequest "/users/9" [("id", "9")])
            = Outcome.fatalWith ResponseWriter.empty e tableAnn) :=
  notFound_terminates tableAnn (getRequest "/users/9" [("id", "9")]) (by
    rintro ⟨u, hu, h⟩
    have h9 : pgIntIn (-2147483648) 2147483647 (Value.text "9") = Except.ok (some 9) := rfl
    have hq : Values.Get (getRequest "/users/9" [("id", "9")]).URL.Query "id" = "9" := rfl
    rw [hq, h9] at h
    simp only [tableAnn, List.mem_singleton] at hu
    subst hu
    simp [ann] at h)

end UserAPI
